import Mathlib

/-!
Verification of the LLVMCompiler front end (parser, IR builder utilities and
LLVM emitter) against its natural-language specification.

The Rust sources are shallowly embedded: every function is translated into an
executable Lean definition over explicit state (the token stream, the IR
function record, the code-generation context).  Rust `Result` values, panics
(`unwrap`, out-of-bounds `Vec` indexing, `usize` underflow) and the fuel the
embedding needs for general recursion are kept apart by the four-way result
type `PRes`.
-/

namespace LLVMCompiler

/-- Modelled from the spec: the tokenizer (outside the provided sources, §6)
produces tokens carrying a textual lexeme and a source location
`(filename, line, column)`. -/
structure FileLocation where
  filename : String := ""
  line : Nat := 0
  column : Nat := 0
deriving Repr, DecidableEq

/-- Modelled from the spec: a `Token` carries `{ data, location }` (§6); the
parser only ever inspects `data`. -/
structure Token where
  data : String
  location : FileLocation := {}
deriving Repr, DecidableEq

/-- Modelled from the spec: the parser's diagnostics are the two kinds of §4.1
("expected X, got Y at loc" from `expected_got_error`, "unexpected EOF
expecting X at loc" from `unexpected_eof_error`); their rendering lives in
`src/parser/error.rs`, which is not among the provided files, so only the
constructor payloads are modelled. -/
inductive CompErr where
  | expectedGot : String → Token → CompErr
  | unexpectedEof : String → Token → CompErr
deriving Repr, DecidableEq

/-- Result of running a piece of embedded Rust code: a value, an `Err`
diagnostic, a Rust panic (`unwrap` on `None`, `Vec` index out of bounds,
`usize` underflow), or `out` when the fuel of the embedding is exhausted
(`out` is an artefact of the embedding, not a behaviour of the source). -/
inductive PRes (α : Type) where
  | ok : α → PRes α
  | err : CompErr → PRes α
  | panic : PRes α
  | out : PRes α
deriving Repr

def PRes.bind {α β : Type} : PRes α → (α → PRes β) → PRes β
  | .ok a, f => f a
  | .err e, _ => .err e
  | .panic, _ => .panic
  | .out, _ => .out

instance : Monad PRes where
  pure := PRes.ok
  bind := PRes.bind

/-- Rust `Option::unwrap`: the value, or a panic. -/
def unwrapO {α : Type} : Option α → PRes α
  | some a => .ok a
  | none => .panic

/-- Rust `Vec` indexing `v[i]`: the element, or a panic when out of bounds. -/
def vecIndex {α : Type} (l : List α) (i : Nat) : PRes α :=
  match l.get? i with
  | some a => .ok a
  | none => .panic

/-- Rust `usize` subtraction `n - 1`: `n = 0` underflows and panics. -/
def usizeSub1 : Nat → PRes Nat
  | 0 => .panic
  | n + 1 => .ok n

/-! ## Parse tree (`src/parser/parser.rs` and the node type it builds) -/

/-- The expression-kind tag, with the variants `parser.rs` constructs. -/
inductive ExpressionType where
  | ArrayAccess | FunctionCall
  | PostIncrement | PostDecrement
  | PreIncrement | PreDecrement | UnaryPlus | UnaryMinus
  | LogicalNot | BitwiseNot | Dereference | Reference | DereferenceLeft
  | Multiply | Divide | Modulus
  | Add | Subtract
  | ShiftLeft | ShiftRight
  | LessThan | LessThanOrEqual | GreaterThan | GreaterThanOrEqual
  | Equal | NotEqual
  | BitwiseAnd | BitwiseXor | BitwiseOr
  | LogicalAnd | LogicalOr
  | Assignment | AddAssign | SubtractAssign | MultiplyAssign | DivideAssign
  | ModulusAssign | ShiftLeftAssign | ShiftRightAssign
  | Comma | Ternary | Cast
deriving Repr, DecidableEq

/-- The parse-tree node, with the variants `parser.rs` constructs and
`convert_to_left` traverses. -/
inductive ParseTreeNode where
  | Library : List ParseTreeNode → ParseTreeNode
  | Function : List ParseTreeNode → ParseTreeNode
  | Arguments : List ParseTreeNode → ParseTreeNode
  | Argument : List ParseTreeNode → ParseTreeNode
  | Type : List ParseTreeNode → ParseTreeNode
  | RawType : Token → ParseTreeNode
  | Statement : List ParseTreeNode → ParseTreeNode
  | Statements : List ParseTreeNode → ParseTreeNode
  | AssignmentStatement : List ParseTreeNode → ParseTreeNode
  | Assignments : List ParseTreeNode → ParseTreeNode
  | Assignment : List ParseTreeNode → ParseTreeNode
  | Expression : ExpressionType → List ParseTreeNode → ParseTreeNode
  | IfStatement : List ParseTreeNode → ParseTreeNode
  | ReturnStatement : List ParseTreeNode → ParseTreeNode
  | WhileLoop : List ParseTreeNode → ParseTreeNode
  | DoWhileLoop : List ParseTreeNode → ParseTreeNode
  | Loop : List ParseTreeNode → ParseTreeNode
  | Identifier : Token → ParseTreeNode
  | IntegerLiteral : Token → ParseTreeNode
  | RawToken : Token → ParseTreeNode
  | Empty : ParseTreeNode
deriving Repr

/-! ## Token stream (`Stream` in `src/parser/parser.rs`) -/

structure Stream where
  tokens : List Token
  index : Nat
deriving Repr

def Stream.new (tokens : List Token) : Stream := ⟨tokens, 0⟩

/-- `Stream::peek`: the token after the current one, if any. -/
def Stream.peek (s : Stream) : Option Token :=
  if s.index + 1 < s.tokens.length then s.tokens.get? (s.index + 1) else none

/-- `Stream::current`: the current token, if any. -/
def Stream.current (s : Stream) : Option Token :=
  if s.index < s.tokens.length then s.tokens.get? s.index else none

/-- `Stream::consume` (the returned bool of the source is never used by the
parser, so only the state change is kept). -/
def Stream.consume (s : Stream) : Stream := { s with index := s.index + 1 }

/-- `Stream::check_current`. -/
def Stream.check_current (s : Stream) (data : String) : Bool :=
  (s.index < s.tokens.length) &&
    (match s.tokens.get? s.index with
     | some t => t.data == data
     | none => false)

/-- `Stream::check_next`. -/
def Stream.check_next (s : Stream) (data : String) : Bool :=
  (s.index + 1 < s.tokens.length) &&
    (match s.peek with
     | some t => t.data == data
     | none => false)

/-- `Stream::expect_at`: the EOF branch reads `self.tokens[index - 1]`, which
panics when `index` is `0` (usize underflow) or `index - 1` is out of
bounds. -/
def Stream.expect_at (s : Stream) (data : String) (index : Nat) : PRes Unit :=
  if index < s.tokens.length then
    match s.tokens.get? index with
    | some got =>
        if data == got.data then .ok ()
        else .err (.expectedGot ("'" ++ data ++ "'") got)
    | none => .panic
  else do
    let i ← usizeSub1 index
    let prev ← vecIndex s.tokens i
    .err (.unexpectedEof ("'" ++ data ++ "'") prev)

/-- `Stream::expect`. -/
def Stream.expect (s : Stream) (data : String) : PRes Unit :=
  s.expect_at data s.index

/-- `Stream::expect_and_consume` (returns the advanced stream). -/
def Stream.expect_and_consume (s : Stream) (data : String) : PRes Stream := do
  let _ ← s.expect_at data s.index
  .ok s.consume

/-- `Stream::expect_next`. -/
def Stream.expect_next (s : Stream) (data : String) : PRes Unit :=
  s.expect_at data (s.index + 1)

/-- `Stream::expect_current_exists`: on EOF it reads
`self.tokens[self.index - 1]` for the diagnostic's location, panicking when
`index` is `0`. -/
def Stream.expect_current_exists (s : Stream) (what : String) : PRes Unit :=
  match s.current with
  | none => do
      let i ← usizeSub1 s.index
      let prev ← vecIndex s.tokens i
      .err (.unexpectedEof what prev)
  | some _ => .ok ()

/-! ## Identifier and integer recognition (`parser.rs` top of file) -/

/-- The base-type names (`TYPES` in `parser.rs`). -/
def TYPES : List String :=
  ["i8", "u8", "i16", "u16", "i32", "u32", "i64", "u64", "void"]

/-- The keywords (`KEYWORDS` in `parser.rs`). -/
def KEYWORDS : List String :=
  ["loop", "while", "if", "break", "continue", "else", "do", "as"]

/-- `MAX_EXPRESSION` in `parser.rs`. -/
def MAX_EXPRESSION : Nat := 17

/-- One character of the leading class of `IDENTIFIER_REGEX`, which in the
source is the regex `\A[a-zA-Z|_][a-zA-Z0-9|_]*`: note that both character
classes contain a literal `|`. -/
def identFirstChar (c : Char) : Bool :=
  (('a' ≤ c && c ≤ 'z') || ('A' ≤ c && c ≤ 'Z')) || c == '|' || c == '_'

/-- `IDENTIFIER_REGEX.is_match`: the regex is `\A`-anchored and its second
class carries a `*`, so a match exists exactly when the first character of
the text belongs to the leading class `[a-zA-Z|_]`. -/
def identifierRegexIsMatch (s : String) : Bool :=
  match s.data with
  | [] => false
  | c :: _ => identFirstChar c

/-- `INTEGER_REGEX.is_match` for `\A[0-9]+`: a match exists exactly when the
first character of the text is a decimal digit. -/
def integerRegexIsMatch (s : String) : Bool :=
  match s.data with
  | [] => false
  | c :: _ => c.isDigit

/-! ## Leaf parsers (`parser.rs`) -/

/-- `parse_raw_type`. -/
def parse_raw_type (s : Stream) : PRes (Stream × ParseTreeNode) := do
  let _ ← s.expect_current_exists "raw type"
  let val ← unwrapO s.current
  if TYPES.contains val.data then
    .ok (s.consume, .RawType val)
  else
    .err (.expectedGot "raw type" val)

/-- `parse_identifier`. -/
def parse_identifier (s : Stream) : PRes (Stream × ParseTreeNode) := do
  let _ ← s.expect_current_exists "identifier"
  let val ← unwrapO s.current
  if TYPES.contains val.data || KEYWORDS.contains val.data
      || !(identifierRegexIsMatch val.data) then
    .err (.expectedGot "identifier" val)
  else
    .ok (s.consume, .Identifier val)

/-- `parse_integer`. -/
def parse_integer (s : Stream) : PRes (Stream × ParseTreeNode) := do
  let _ ← s.expect_current_exists "integer"
  let val ← unwrapO s.current
  if !(integerRegexIsMatch val.data) then
    .err (.expectedGot "integer" val)
  else
    .ok (s.consume, .IntegerLiteral val)

/-- `parse_token`. -/
def parse_token (s : Stream) (what : String) : PRes (Stream × ParseTreeNode) := do
  let _ ← s.expect_current_exists what
  let val ← unwrapO s.current
  .ok (s.consume, .RawToken val)

/-! ## `convert_to_left` (`parser.rs`)

The source applies two sequential `match`es: the first retypes the root when
it is `Expression(Dereference, c)` into `Expression(DereferenceLeft, c)`, the
second rebuilds every node whose children are a list by converting each child.
Only `Expression` nodes carry an `ExpressionType`, so the two stages fuse
into one structural match (the root retype only affects the `Expression`
arm). -/

mutual

def convert_to_left : ParseTreeNode → PRes ParseTreeNode
  | .Expression t c => do
      let t2 := if t == ExpressionType.Dereference then ExpressionType.DereferenceLeft else t
      let c2 ← convert_to_left_list c
      .ok (.Expression t2 c2)
  | .Library c => do .ok (.Library (← convert_to_left_list c))
  | .Function c => do .ok (.Function (← convert_to_left_list c))
  | .Arguments c => do .ok (.Arguments (← convert_to_left_list c))
  | .Argument c => do .ok (.Argument (← convert_to_left_list c))
  | .Type c => do .ok (.Type (← convert_to_left_list c))
  | .Statement c => do .ok (.Statement (← convert_to_left_list c))
  | .Statements c => do .ok (.Statements (← convert_to_left_list c))
  | .Assignments c => do .ok (.Assignments (← convert_to_left_list c))
  | .Assignment c => do .ok (.Assignment (← convert_to_left_list c))
  | .AssignmentStatement c => do .ok (.AssignmentStatement (← convert_to_left_list c))
  | .IfStatement c => do .ok (.IfStatement (← convert_to_left_list c))
  | .ReturnStatement c => do .ok (.ReturnStatement (← convert_to_left_list c))
  | .WhileLoop c => do .ok (.WhileLoop (← convert_to_left_list c))
  | .DoWhileLoop c => do .ok (.DoWhileLoop (← convert_to_left_list c))
  | .Loop c => do .ok (.Loop (← convert_to_left_list c))
  | n => .ok n

def convert_to_left_list : List ParseTreeNode → PRes (List ParseTreeNode)
  | [] => .ok []
  | x :: xs => do
      let y ← convert_to_left x
      let ys ← convert_to_left_list xs
      .ok (y :: ys)

end

/-! ## Expression parsing (`recursive_expression` in `parser.rs`)

The Rust functions recurse through the statement and expression grammar and
iterate with `while` loops over the stream; the embedding makes both explicit
with a fuel argument that every (mutually) recursive call decreases.  Fuel
exhaustion is the distinguished result `PRes.out`, never confused with a
diagnostic or a panic of the source. -/

/-- The operator table of `recursive_expression` for the binary levels
(the inner `match depth` of the source, levels 4-13, 15 and 17). -/
def binaryOpAt (depth : Nat) (d : String) : Option ExpressionType :=
  match depth with
  | 4 =>
    match d with
    | "*" => some .Multiply
    | "/" => some .Divide
    | "%" => some .Modulus
    | _ => none
  | 5 =>
    match d with
    | "+" => some .Add
    | "-" => some .Subtract
    | _ => none
  | 6 =>
    match d with
    | "<<" => some .ShiftLeft
    | ">>" => some .ShiftRight
    | _ => none
  | 7 =>
    match d with
    | "<" => some .LessThan
    | "<=" => some .LessThanOrEqual
    | ">" => some .GreaterThan
    | ">=" => some .GreaterThanOrEqual
    | _ => none
  | 8 =>
    match d with
    | "==" => some .Equal
    | "!=" => some .NotEqual
    | _ => none
  | 9 => if d == "&" then some .BitwiseAnd else none
  | 10 => if d == "^" then some .BitwiseXor else none
  | 11 => if d == "|" then some .BitwiseOr else none
  | 12 => if d == "&&" then some .LogicalAnd else none
  | 13 => if d == "||" then some .LogicalOr else none
  | 15 =>
    match d with
    | "=" => some .Assignment
    | "+=" => some .AddAssign
    | "-=" => some .SubtractAssign
    | "*=" => some .MultiplyAssign
    | "/=" => some .DivideAssign
    | "%=" => some .ModulusAssign
    | "<<=" => some .ShiftLeftAssign
    | ">>=" => some .ShiftRightAssign
    | "&=" => some .BitwiseAnd
    | "^=" => some .BitwiseXor
    | "|=" => some .BitwiseOr
    | _ => none
  | 17 => if d == "," then some .Comma else none
  | _ => none

/-- The prefix-operator table of `recursive_expression` depth 3. -/
def prefixOpOf (d : String) : Option ExpressionType :=
  match d with
  | "++" => some .PreIncrement
  | "--" => some .PreDecrement
  | "+" => some .UnaryPlus
  | "-" => some .UnaryMinus
  | "!" => some .LogicalNot
  | "~" => some .BitwiseNot
  | "*" => some .Dereference
  | "&" => some .Reference
  | _ => none

mutual

/-- `recursive_expression`.  Depth 0 note: on an exhausted stream the source's
final branch is `expected_got_error("expression", &stream.current().unwrap())`,
and depth 3 opens with `stream.current().unwrap()`; both `unwrap`s are kept as
potential panics. -/
def recursive_expression : Nat → Stream → Nat → PRes (Stream × ParseTreeNode)
  | 0, _, _ => .out
  | fuel + 1, s, depth =>
    match depth with
    | 0 =>
      if s.check_current "(" then do
        let s ← s.expect_and_consume "("
        let (s, val) ← recursive_expression fuel s MAX_EXPRESSION
        let s ← s.expect_and_consume ")"
        .ok (s, val)
      else
        match parse_integer s with
        | .ok v => .ok v
        | .panic => .panic
        | .out => .out
        | .err _ =>
          match parse_identifier s with
          | .ok v => .ok v
          | .panic => .panic
          | .out => .out
          | .err _ => do
              let cur ← unwrapO s.current
              .err (.expectedGot "expression" cur)
    | 1 => do
        let (s, current) ← recursive_expression fuel s 0
        postfix_call_loop fuel s current
    | 2 => do
        let (s, current) ← recursive_expression fuel s 1
        post_incdec_loop fuel s current
    | 3 => do
        let cur ← unwrapO s.current
        match prefixOpOf cur.data with
        | none => recursive_expression fuel s 2
        | some op => do
            let s := s.consume
            let (s, post) ← recursive_expression fuel s 3
            .ok (s, .Expression op [post])
    | 14 => do
        let (s, prev) ← recursive_expression fuel s 13
        if s.check_current "?" then do
          let s ← s.expect_and_consume "?"
          let (s, inner) ← parse_expression fuel s
          let s ← s.expect_and_consume ":"
          let (s, last) ← recursive_expression fuel s 14
          .ok (s, .Expression .Ternary [prev, inner, last])
        else
          .ok (s, prev)
    | 16 => do
        let (s, prev) ← recursive_expression fuel s 15
        if s.check_current "as" then do
          let s ← s.expect_and_consume "as"
          let (s, datatype) ← parse_type fuel s
          .ok (s, .Expression .Cast [prev, datatype])
        else
          .ok (s, prev)
    | d =>
      if (4 ≤ d ∧ d ≤ 13) ∨ d = 15 ∨ d = 17 then do
        let (s, prev) ← recursive_expression fuel s (d - 1)
        let op :=
          match s.current with
          | some current => binaryOpAt d current.data
          | none => none
        match op with
        | none => .ok (s, prev)
        | some o => do
            let s := s.consume
            let prev ← if d = 15 then convert_to_left prev else .ok prev
            let (s, post) ← recursive_expression fuel s d
            .ok (s, .Expression o [prev, post])
      else
        .panic

/-- The `while check("[") || check("(")` loop of `recursive_expression`
depth 1. -/
def postfix_call_loop : Nat → Stream → ParseTreeNode → PRes (Stream × ParseTreeNode)
  | 0, _, _ => .out
  | fuel + 1, s, current =>
    if s.check_current "[" then do
      let s ← s.expect_and_consume "["
      let (s, expr) ← parse_expression fuel s
      let s ← s.expect_and_consume "]"
      postfix_call_loop fuel s (.Expression .ArrayAccess [current, expr])
    else if s.check_current "(" then do
      let s ← s.expect_and_consume "("
      let (s, items) ← call_args_loop fuel s [current]
      let s ← s.expect_and_consume ")"
      postfix_call_loop fuel s (.Expression .FunctionCall items)
    else
      .ok (s, current)

/-- The `while !check(")")` argument loop inside the function-call branch of
`recursive_expression` depth 1. -/
def call_args_loop : Nat → Stream → List ParseTreeNode → PRes (Stream × List ParseTreeNode)
  | 0, _, _ => .out
  | fuel + 1, s, items =>
    if s.check_current ")" then
      .ok (s, items)
    else do
      let (s, e) ← recursive_expression fuel s (MAX_EXPRESSION - 1)
      let items := items ++ [e]
      if s.check_current "," then do
        let s ← s.expect_and_consume ","
        call_args_loop fuel s items
      else
        .ok (s, items)

/-- The `while check("++") || check("--")` loop of `recursive_expression`
depth 2. -/
def post_incdec_loop : Nat → Stream → ParseTreeNode → PRes (Stream × ParseTreeNode)
  | 0, _, _ => .out
  | fuel + 1, s, current =>
    if s.check_current "++" then do
      let s ← s.expect_and_consume "++"
      post_incdec_loop fuel s (.Expression .PostIncrement [current])
    else if s.check_current "--" then do
      let s ← s.expect_and_consume "--"
      post_incdec_loop fuel s (.Expression .PostDecrement [current])
    else
      .ok (s, current)

/-- `parse_expression`. -/
def parse_expression : Nat → Stream → PRes (Stream × ParseTreeNode)
  | 0, _ => .out
  | fuel + 1, s => do
    let _ ← s.expect_current_exists "expression"
    recursive_expression fuel s MAX_EXPRESSION

/-- `parse_expression_no_comma`. -/
def parse_expression_no_comma : Nat → Stream → PRes (Stream × ParseTreeNode)
  | 0, _ => .out
  | fuel + 1, s => do
    let _ ← s.expect_current_exists "expression"
    recursive_expression fuel s (MAX_EXPRESSION - 1)

/-- `parse_type` (a raw type followed by the `*` loop). -/
def parse_type : Nat → Stream → PRes (Stream × ParseTreeNode)
  | 0, _ => .out
  | fuel + 1, s => do
    let _ ← s.expect_current_exists "type"
    let (s, raw) ← parse_raw_type s
    let (s, items) ← type_stars_loop fuel s [raw]
    .ok (s, .Type items)

/-- The `while check("*")` loop of `parse_type`. -/
def type_stars_loop : Nat → Stream → List ParseTreeNode → PRes (Stream × List ParseTreeNode)
  | 0, _, _ => .out
  | fuel + 1, s, items =>
    if s.check_current "*" then do
      let tok ← unwrapO s.current
      type_stars_loop fuel s.consume (items ++ [.RawToken tok])
    else
      .ok (s, items)

/-- `parse_assignment`. -/
def parse_assignment : Nat → Stream → PRes (Stream × ParseTreeNode)
  | 0, _ => .out
  | fuel + 1, s => do
    let _ ← s.expect_current_exists "assignment"
    let (s, identifier) ← parse_identifier s
    let s ← s.expect_and_consume "="
    let (s, expr) ← parse_expression_no_comma fuel s
    .ok (s, .Assignment [identifier, expr])

/-- `parse_assignments`. -/
def parse_assignments : Nat → Stream → PRes (Stream × ParseTreeNode)
  | 0, _ => .out
  | fuel + 1, s => do
    let (s, arg) ← parse_assignment fuel s
    assignments_loop fuel s [arg]

/-- The `while check(",")` loop of `parse_assignments`. -/
def assignments_loop : Nat → Stream → List ParseTreeNode → PRes (Stream × ParseTreeNode)
  | 0, _, _ => .out
  | fuel + 1, s, items =>
    if s.check_current "," then do
      let s := s.consume
      let (s, a) ← parse_assignment fuel s
      assignments_loop fuel s (items ++ [a])
    else
      .ok (s, .Assignments items)

/-- `parse_if_statement`. -/
def parse_if_statement : Nat → Stream → PRes (Stream × ParseTreeNode)
  | 0, _ => .out
  | fuel + 1, s => do
    let _ ← s.expect_current_exists "if statement"
    let s ← s.expect_and_consume "if"
    let (s, cond) ← parse_expression fuel s
    let (s, body) ← parse_statement fuel s
    if s.check_current "else" then do
      let s ← s.expect_and_consume "else"
      let (s, clause) ← parse_statement fuel s
      .ok (s, .IfStatement [cond, body, clause])
    else
      .ok (s, .IfStatement [cond, body, .Empty])

/-- `parse_while_loop`. -/
def parse_while_loop : Nat → Stream → PRes (Stream × ParseTreeNode)
  | 0, _ => .out
  | fuel + 1, s => do
    let _ ← s.expect_current_exists "while loop"
    let s ← s.expect_and_consume "while"
    let (s, cond) ← parse_expression fuel s
    let (s, statement) ← parse_statement fuel s
    .ok (s, .WhileLoop [cond, statement])

/-- `parse_do_while_loop`. -/
def parse_do_while_loop : Nat → Stream → PRes (Stream × ParseTreeNode)
  | 0, _ => .out
  | fuel + 1, s => do
    let _ ← s.expect_current_exists "do while loop"
    let s ← s.expect_and_consume "do"
    let (s, statement) ← parse_statement fuel s
    let s ← s.expect_and_consume "while"
    let (s, cond) ← parse_expression fuel s
    .ok (s, .DoWhileLoop [cond, statement])

/-- `parse_loop`. -/
def parse_loop : Nat → Stream → PRes (Stream × ParseTreeNode)
  | 0, _ => .out
  | fuel + 1, s => do
    let _ ← s.expect_current_exists "loop"
    let s ← s.expect_and_consume "loop"
    let (s, statement) ← parse_statement fuel s
    .ok (s, .Loop [statement])

/-- `parse_statement`.  The `else if let Ok(val) = parse_type(&stream)` of the
source discards the error of a failed type parse and falls through to the
remaining branches; a panic (or fuel exhaustion) propagates. -/
def parse_statement : Nat → Stream → PRes (Stream × ParseTreeNode)
  | 0, _ => .out
  | fuel + 1, s => do
    let _ ← s.expect_current_exists "statement"
    if s.check_current ";" then
      .ok (s.consume, .Statement [])
    else if s.check_current "\x7b" then do
      let s := s.consume
      let (s, statements) ← statements_loop fuel s []
      let s ← s.expect_and_consume "\x7d"
      .ok (s, .Statements statements)
    else if s.check_current "continue" || s.check_current "break" then do
      let (s, tok) ← parse_token s "command"
      let s ← s.expect_and_consume ";"
      .ok (s, .Statement [tok])
    else
      match parse_type fuel s with
      | .ok (s, datatype) => do
          let (s, assignments) ← parse_assignments fuel s
          let s ← s.expect_and_consume ";"
          .ok (s, .AssignmentStatement [datatype, assignments])
      | .panic => .panic
      | .out => .out
      | .err _ =>
        if s.check_current "if" then
          parse_if_statement fuel s
        else if s.check_current "while" then
          parse_while_loop fuel s
        else if s.check_current "do" then
          parse_do_while_loop fuel s
        else if s.check_current "loop" then
          parse_loop fuel s
        else if s.check_current "return" then do
          let s ← s.expect_and_consume "return"
          let (s, expr) ← parse_expression fuel s
          let s ← s.expect_and_consume ";"
          .ok (s, .ReturnStatement [expr])
        else do
          let (s, expr) ← parse_expression fuel s
          let s ← s.expect_and_consume ";"
          .ok (s, .Statement [expr])

/-- The `while !check("}")` loop of the compound-statement branch of
`parse_statement`. -/
def statements_loop : Nat → Stream → List ParseTreeNode → PRes (Stream × List ParseTreeNode)
  | 0, _, _ => .out
  | fuel + 1, s, acc =>
    if s.check_current "\x7d" then
      .ok (s, acc)
    else do
      let (s, st) ← parse_statement fuel s
      statements_loop fuel s (acc ++ [st])

/-- `parse_argument`. -/
def parse_argument : Nat → Stream → PRes (Stream × ParseTreeNode)
  | 0, _ => .out
  | fuel + 1, s => do
    let _ ← s.expect_current_exists "argument"
    let (s, datatype) ← parse_type fuel s
    let (s, name) ← parse_identifier s
    .ok (s, .Argument [datatype, name])

/-- `parse_arguments`. -/
def parse_arguments : Nat → Stream → PRes (Stream × ParseTreeNode)
  | 0, _ => .out
  | fuel + 1, s => do
    let (s, arg) ← parse_argument fuel s
    arguments_loop fuel s [arg]

/-- The `while check(",")` loop of `parse_arguments`. -/
def arguments_loop : Nat → Stream → List ParseTreeNode → PRes (Stream × ParseTreeNode)
  | 0, _, _ => .out
  | fuel + 1, s, items =>
    if s.check_current "," then do
      let s := s.consume
      let (s, a) ← parse_argument fuel s
      arguments_loop fuel s (items ++ [a])
    else
      .ok (s, .Arguments items)

/-- `parse_function`. -/
def parse_function : Nat → Stream → PRes (Stream × ParseTreeNode)
  | 0, _ => .out
  | fuel + 1, s => do
    let _ ← s.expect_current_exists "function"
    let (s, return_type) ← parse_type fuel s
    let (s, func_name) ← parse_identifier s
    let _ ← s.expect "("
    let s := s.consume
    let (s, args) ←
      if s.check_current ")" then
        .ok (s, ParseTreeNode.Empty)
      else
        parse_arguments fuel s
    let _ ← s.expect ")"
    let s := s.consume
    let (s, statement) ← parse_statement fuel s
    .ok (s, .Function [return_type, func_name, args, statement])

/-- `parse_library`: the `while stream.peek().is_some()` loop. -/
def parse_library_aux : Nat → Stream → List ParseTreeNode → PRes (Stream × ParseTreeNode)
  | 0, _, _ => .out
  | fuel + 1, s, items =>
    if s.peek.isSome then do
      let (s, func) ← parse_function fuel s
      parse_library_aux fuel s (items ++ [func])
    else
      .ok (s, .Library items)

end

/-- `parse`: the entry point; the fuel bound is an embedding artefact and is
generous enough for the nesting depth any list of that many tokens can
force. -/
def parse (tokens : List Token) : PRes ParseTreeNode :=
  match parse_library_aux (64 * (tokens.length + 1)) (Stream.new tokens) [] with
  | .ok (_, node) => .ok node
  | .err e => .err e
  | .panic => .panic
  | .out => .out

/-! ## Types (`DataType` of the `llvm` module)

`DataType`/`NonPtrType` and their helpers live in `src/llvm` outside the
provided files; their shape is fixed by their uses in `src/irgen` and
`src/codegen/llvm/functions.rs` and their semantics by §3.1/§4.5 of the
spec. -/

/-- Modelled from the spec: the scalar bases of §3.1,
`{I8,U8,I16,U16,I32,U32,I64,U64,Void,Unknown}`. -/
inductive NonPtrType where
  | I8 | U8 | I16 | U16 | I32 | U32 | I64 | U64 | Void | Unknown
deriving Repr, DecidableEq

/-- Modelled from the spec: a `DataType` is the triple
`(raw, ptr_depth, is_ref)` of §3.1, with the field names the Rust sources
use (`raw_type`, `num_ptr`, `is_ref`). -/
structure DataType where
  raw_type : NonPtrType
  num_ptr : Nat
  is_ref : Bool
deriving Repr, DecidableEq

/-- Modelled from the spec: `DataType::is_signed` (its definition is in the
missing `src/llvm` type module); §3.1: a type is signed iff
`raw ∈ {I8,I16,I32,I64}` and `ptr_depth == 0`. -/
def DataType.is_signed (t : DataType) : Bool :=
  (t.raw_type == .I8 || t.raw_type == .I16 || t.raw_type == .I32 || t.raw_type == .I64)
    && t.num_ptr == 0

/-- Modelled from the spec: `bytes_size_of` (from the missing
`src/codegen/llvm` module); §3.1: byte size `{8,16,32,64}→{1,2,4,8}`, `void`
is 0, any `ptr_depth>0` is 8.  `Unknown` never reaches the emitter (§4.3
invariant); it is given size 0. -/
def bytes_size_of (t : DataType) : Nat :=
  if t.num_ptr > 0 then 8
  else
    match t.raw_type with
    | .I8 | .U8 => 1
    | .I16 | .U16 => 2
    | .I32 | .U32 => 4
    | .I64 | .U64 => 8
    | .Void => 0
    | .Unknown => 0

/-- One `*` per pointer level. -/
def ptrStars : Nat → String
  | 0 => ""
  | n + 1 => ptrStars n ++ "*"

/-- Modelled from the spec: `convert_to_llvm` (from the missing
`src/codegen/llvm` module); §4.5 type printing: `iN` for the integer bases,
`void` for void, one `*` appended per `ptr_depth`.  `Unknown` never reaches
the emitter (§4.3 invariant); it is printed as `unknown`. -/
def convert_to_llvm (t : DataType) : String :=
  (match t.raw_type with
   | .I8 | .U8 => "i8"
   | .I16 | .U16 => "i16"
   | .I32 | .U32 => "i32"
   | .I64 | .U64 => "i64"
   | .Void => "void"
   | .Unknown => "unknown") ++ ptrStars t.num_ptr

/-! ## IR values (`src/irgen/instruction.rs`) -/

/-- `Symbol` of `instruction.rs`. -/
structure Symbol where
  title : String
  datatype : DataType
deriving Repr, DecidableEq

/-- `Literal` of `instruction.rs` (`value` is an `i128`). -/
structure Literal where
  value : Int
  datatype : DataType
deriving Repr, DecidableEq

/-- `Value` of `instruction.rs`. -/
inductive Value where
  | Symbol : Symbol → Value
  | Label : String → Value
  | Literal : Literal → Value
deriving Repr, DecidableEq

/-- `OpCode` of `instruction.rs` (the opcode set of the provided copy). -/
inductive OpCode where
  | Alloc | Ret | Nop | Jmp | Mov | Bne | Beq
deriving Repr, DecidableEq

/-- `Instruction` of `instruction.rs`. -/
structure Instruction where
  opcode : OpCode
  arguments : List Value
deriving Repr, DecidableEq

/-! ## Type-mutation utilities (`src/irgen/utils.rs`) -/

/-- `get_value_type`. -/
def get_value_type : Value → Option DataType
  | .Literal literal => some literal.datatype
  | .Symbol symbol => some symbol.datatype
  | .Label _ => none

/-- `has_unknown_type`. -/
def has_unknown_type (v : Value) : Bool :=
  match get_value_type v with
  | some t => t.raw_type == .Unknown
  | none => true

/-- `correct_type_references`: clears `is_ref`. -/
def correct_type_references (datatype : DataType) : DataType :=
  { datatype with is_ref := false }

/-- `attempt_mutate_type`. -/
def attempt_mutate_type (value : Value) (new_type : DataType) : Value :=
  match value with
  | .Literal literal =>
      if literal.datatype.raw_type == .Unknown then
        .Literal { literal with datatype := correct_type_references new_type }
      else
        .Literal literal
  | v => v

/-- `force_mutate_type`. -/
def force_mutate_type (value : Value) (new_type : DataType) : Value :=
  match value with
  | .Literal literal =>
      if literal.datatype.raw_type == .Unknown then
        .Literal { literal with datatype := correct_type_references new_type }
      else
        .Literal literal
  | .Symbol symb =>
      if symb.datatype.raw_type == .Unknown then
        .Symbol { symb with datatype := correct_type_references new_type }
      else
        .Symbol symb
  | v => v

/-! ## IR functions (`Function` in `src/irgen/instruction.rs`)

The two `HashMap`s (`instructions`, `labels`) and the `symbol_table` are
embedded as association lists: `insert` conses a binding that shadows any
older one, and every read goes through `assocFind`, which returns the most
recent binding, exactly as the `HashMap` returns its unique one. -/

/-- The most recent binding of a key. -/
def assocFind {κ α : Type} [BEq κ] (m : List (κ × α)) (k : κ) : Option α :=
  match m with
  | [] => none
  | (k2, v) :: rest => if k2 == k then some v else assocFind rest k

/-- `Function` of `instruction.rs`. -/
structure Function where
  instructions : List (Nat × Instruction)
  labels : List (Nat × List String)
  symbol_table : List (String × Symbol)
  return_type : DataType
  name : String
  arguments : List (String × DataType)
  next_label : Nat
  next_register : Nat
  next_index : Nat
  continue_stack : List String
  break_stack : List String
deriving Repr

/-- `Function::new` (the two-argument `DataType::new(Void, 0)` of the source
builds a non-reference type). -/
def Function.new : Function where
  instructions := []
  labels := []
  symbol_table := []
  return_type := ⟨.Void, 0, false⟩
  name := "[UNKNOWN]"
  arguments := []
  next_label := 0
  next_register := 0
  next_index := 0
  continue_stack := []
  break_stack := []

/-- `Function::get_label`: mints `L<k>` and bumps the counter. -/
def Function.get_label (f : Function) : String × Function :=
  ("L" ++ toString f.next_label, { f with next_label := f.next_label + 1 })

/-- `Function::get_register`: mints `R<k>` and bumps the counter. -/
def Function.get_register (f : Function) : String × Function :=
  ("R" ++ toString f.next_register, { f with next_register := f.next_register + 1 })

/-- `Function::place_label`: pushes onto the label list at `index`, creating
it when absent. -/
def Function.place_label (f : Function) (label : String) (index : Nat) : Function :=
  match assocFind f.labels index with
  | some ls => { f with labels := (index, ls ++ [label]) :: f.labels }
  | none => { f with labels := (index, [label]) :: f.labels }

/-- `Function::place_label_here` (the source repeats the body of
`place_label` at `self.next_index`). -/
def Function.place_label_here (f : Function) (label : String) : Function :=
  f.place_label label f.next_index

/-- `Function::add_instruction`. -/
def Function.add_instruction (f : Function) (inst : Instruction) : Function :=
  { f with
    instructions := (f.next_index, inst) :: f.instructions
    next_index := f.next_index + 1 }

/-- `Function::enter_loop`: mints an entry and an exit label and pushes them
on the two loop stacks (`Vec::push` appends at the end). -/
def Function.enter_loop (f : Function) : (String × String) × Function :=
  let (entry, f) := f.get_label
  let (exitLabel, f) := f.get_label
  ((entry, exitLabel),
   { f with
     continue_stack := f.continue_stack ++ [entry]
     break_stack := f.break_stack ++ [exitLabel] })

/-- `Function::exit_loop`: `Vec::pop` on both stacks (popping an empty `Vec`
is a no-op returning `None`). -/
def Function.exit_loop (f : Function) : Function :=
  { f with
    continue_stack := f.continue_stack.dropLast
    break_stack := f.break_stack.dropLast }

/-- `Function::get_continue`: reads `continue_stack[continue_stack.len() - 1]`
when the stack is non-empty. -/
def Function.get_continue (f : Function) : PRes (Option String) :=
  if f.continue_stack.length > 0 then do
    let i ← usizeSub1 f.continue_stack.length
    let x ← vecIndex f.continue_stack i
    .ok (some x)
  else
    .ok none

/-- `Function::get_break`: the source reads
`break_stack[continue_stack.len() - 1]` — the index comes from the *other*
stack (both the `usize` underflow and the out-of-bounds index would be
panics). -/
def Function.get_break (f : Function) : PRes (Option String) :=
  if f.break_stack.length > 0 then do
    let i ← usizeSub1 f.continue_stack.length
    let x ← vecIndex f.break_stack i
    .ok (some x)
  else
    .ok none

/-- One call of the loop-stack interface, as the IR builder performs them. -/
inductive LoopOp where
  | enter | exitl | getContinue | getBreak
deriving Repr, DecidableEq

/-- The state change of one loop-stack call (`get_continue`/`get_break` take
`&mut self` but only read). -/
def loopStep (f : Function) : LoopOp → Function
  | .enter => f.enter_loop.2
  | .exitl => f.exit_loop
  | .getContinue => f
  | .getBreak => f

/-- The `Function` state after a sequence of loop-stack calls starting from
`Function::new`. -/
def runLoopOps (ops : List LoopOp) : Function :=
  ops.foldl loopStep Function.new

/-! ## LLVM emitter (`src/codegen/llvm/functions.rs`)

The emitter's output buffer is embedded as the ordered list of the commands
passed to `insert_command` (the source glues them into one string with
four-space indentation and newlines, a pure presentation step).  The `values`
map is an association list with the same shadowing discipline as above.  The
`func` field of `FunctionGenerationContext` only feeds the outer loop of
`render_function`; the per-opcode arms, embedded below, take the
instruction's argument list directly. -/

/-- `LLVMValue`. -/
structure LLVMValue where
  ptr : String
  datatype : DataType
deriving Repr, DecidableEq

/-- `LLVMValue::get_pointer_datatype`. -/
def LLVMValue.get_pointer_datatype (v : LLVMValue) : DataType :=
  { v.datatype with num_ptr := v.datatype.num_ptr + 1 }

/-- `FunctionGenerationContext` (without the `func` field, see above). -/
structure FunctionGenerationContext where
  values : List (String × LLVMValue)
  next_temp : Nat
  result : List String
  current_arguments : String
deriving Repr, DecidableEq

/-- A fresh context, as `FunctionGenerationContext::new` initialises the
mutable fields. -/
def FunctionGenerationContext.new : FunctionGenerationContext where
  values := []
  next_temp := 0
  result := []
  current_arguments := ""

/-- `insert_command`. -/
def FunctionGenerationContext.insert_command
    (c : FunctionGenerationContext) (cmd : String) : FunctionGenerationContext :=
  { c with result := c.result ++ [cmd] }

/-- `get_next_temp`: mints `%V<k>` and bumps the counter. -/
def FunctionGenerationContext.get_next_temp
    (c : FunctionGenerationContext) : FunctionGenerationContext × String :=
  ({ c with next_temp := c.next_temp + 1 }, "%V" ++ toString c.next_temp)

/-- `create_new_value`: allocates a stack slot (`alloca`) for a symbol. -/
def FunctionGenerationContext.create_new_value
    (c : FunctionGenerationContext) (title : String) (datatype : DataType) :
    FunctionGenerationContext :=
  let (c, ptr) := c.get_next_temp
  let c := { c with values := (title, LLVMValue.mk ptr datatype) :: c.values }
  c.insert_command
    (ptr ++ " = alloca " ++ convert_to_llvm datatype ++ ", align "
      ++ toString (bytes_size_of datatype))

/-- `get_reference` (the post-creation `values.get(..).unwrap()`s are kept as
potential panics). -/
def FunctionGenerationContext.get_reference
    (c : FunctionGenerationContext) (var : Symbol) (include_type : Bool) :
    PRes (FunctionGenerationContext × String) := do
  let c :=
    if (assocFind c.values var.title).isSome then c
    else c.create_new_value var.title var.datatype
  let v ← unwrapO (assocFind c.values var.title)
  if include_type then
    .ok (c, convert_to_llvm v.get_pointer_datatype ++ " " ++ v.ptr)
  else
    .ok (c, v.ptr)

/-- `get_value`: loads a symbol's slot into a fresh temporary. -/
def FunctionGenerationContext.get_value
    (c : FunctionGenerationContext) (var : Symbol) (include_type : Bool) :
    PRes (FunctionGenerationContext × String) := do
  let c :=
    if (assocFind c.values var.title).isSome then c
    else c.create_new_value var.title var.datatype
  let (c, reg) := c.get_next_temp
  let v ← unwrapO (assocFind c.values var.title)
  let dt := v.datatype
  let pdt := v.get_pointer_datatype
  let c := c.insert_command
    (reg ++ " = load " ++ convert_to_llvm dt ++ ", " ++ convert_to_llvm pdt
      ++ " " ++ v.ptr ++ ", align " ++ toString (bytes_size_of var.datatype))
  if include_type then
    if !(dt.raw_type == .Void && dt.num_ptr == 0) then
      .ok (c, convert_to_llvm dt ++ " " ++ reg)
    else
      .ok (c, convert_to_llvm dt)
  else
    .ok (c, reg)

/-- `render_value`. -/
def FunctionGenerationContext.render_value
    (c : FunctionGenerationContext) (val : Value) (include_type : Bool) :
    PRes (FunctionGenerationContext × String) :=
  match val with
  | .Label label => .ok (c, "label %" ++ label)
  | .Literal literal =>
      if !(literal.datatype.raw_type == .Void && literal.datatype.num_ptr == 0) then
        if literal.datatype.num_ptr == 0 && !literal.datatype.is_ref then
          if include_type then
            .ok (c, convert_to_llvm literal.datatype ++ " " ++ toString literal.value)
          else
            .ok (c, toString literal.value)
        else
          if include_type then
            .ok (c, convert_to_llvm literal.datatype ++ " inttoptr (i64 "
              ++ toString literal.value ++ " to " ++ convert_to_llvm literal.datatype ++ ")")
          else
            .ok (c, "inttoptr (i64 " ++ toString literal.value ++ " to "
              ++ convert_to_llvm literal.datatype ++ ")")
      else
        if include_type then
          .ok (c, convert_to_llvm literal.datatype)
        else
          .ok (c, "")
  | .Symbol symbol => c.get_value symbol include_type

/-- `render_pointer`: panics on a label or a literal. -/
def FunctionGenerationContext.render_pointer
    (c : FunctionGenerationContext) (val : Value) :
    PRes (FunctionGenerationContext × String) :=
  match val with
  | .Label _ => .panic
  | .Literal _ => .panic
  | .Symbol symbol => c.get_reference symbol true

/-- `add_move`: a `store` into the destination's slot (or into the rendered
destination itself when it `is_ref`); a destination without a type (a label)
is silently skipped. -/
def FunctionGenerationContext.add_move
    (c : FunctionGenerationContext) (dest : Value) (src : String) :
    PRes FunctionGenerationContext :=
  match get_value_type dest with
  | none => .ok c
  | some datatype =>
    if !datatype.is_ref then do
      let (c, val0) ← c.render_pointer dest
      .ok (c.insert_command ("store " ++ src ++ ", " ++ val0))
    else do
      let (c, val0) ← c.render_value dest true
      .ok (c.insert_command ("store " ++ src ++ ", " ++ val0))

/-- The `OpCode::Cast` arm of `render_function` (lines 367-436 of
`functions.rs`), applied to the instruction's argument list
`[dest, src]`. -/
def FunctionGenerationContext.render_cast
    (c : FunctionGenerationContext) (arguments : List Value) :
    PRes FunctionGenerationContext := do
  let a0 ← vecIndex arguments 0
  let a1 ← vecIndex arguments 1
  let dest_type ← unwrapO (get_value_type a0)
  let src_type ← unwrapO (get_value_type a1)
  let dest_size := bytes_size_of dest_type
  let src_size := bytes_size_of src_type
  let (c, current0) ← c.render_value a1 false
  let current_type0 := convert_to_llvm src_type
  let (c, current1, current_type1) :=
    if src_type.num_ptr > 0 then
      let (c, next) := c.get_next_temp
      let c := c.insert_command
        (next ++ " = ptrtoint " ++ current_type0 ++ " " ++ current0 ++ " to i64")
      (c, next, "i64")
    else
      (c, current0, current_type0)
  let (c, current2, current_type2) :=
    if convert_to_llvm dest_type != convert_to_llvm src_type then
      let next_type := if dest_type.num_ptr == 0 then convert_to_llvm dest_type else "i64"
      let (c, current, current_type) :=
        if dest_size < src_size && current_type1 != next_type then
          let (c, next) := c.get_next_temp
          let c := c.insert_command
            (next ++ " = trunc " ++ current_type1 ++ " " ++ current1 ++ " to " ++ next_type)
          (c, next, next_type)
        else if dest_size > src_size && current_type1 != next_type then
          let (c, next) := c.get_next_temp
          let c := c.insert_command
            (next ++ " = " ++ (if dest_type.is_signed then "sext" else "zext") ++ " "
              ++ current_type1 ++ " " ++ current1 ++ " to " ++ next_type)
          (c, next, next_type)
        else
          (c, current1, current_type1)
      if dest_type.num_ptr > 0 then
        if src_type.num_ptr == 0 then
          let (c, next) := c.get_next_temp
          let c := c.insert_command
            (next ++ " = inttoptr " ++ current_type ++ " " ++ current ++ " to "
              ++ convert_to_llvm dest_type)
          (c, next, convert_to_llvm dest_type)
        else
          let (c, next) := c.get_next_temp
          let c := c.insert_command
            (next ++ " = bitcast " ++ current_type ++ " " ++ current ++ " to "
              ++ convert_to_llvm dest_type)
          (c, next, convert_to_llvm dest_type)
      else
        (c, current, current_type)
    else
      (c, current1, current_type1)
  c.add_move a0 (current_type2 ++ " " ++ current2)

/-- The `OpCode::Shr` arm of `render_function` (lines 620-630 of
`functions.rs`), applied to the instruction's argument list
`[dest, a, b]`. -/
def FunctionGenerationContext.render_shr
    (c : FunctionGenerationContext) (arguments : List Value) :
    PRes FunctionGenerationContext := do
  let a0 ← vecIndex arguments 0
  let a1 ← vecIndex arguments 1
  let a2 ← vecIndex arguments 2
  let (c, temp) := c.get_next_temp
  let (c, val0) ← c.render_value a1 true
  let (c, val1) ← c.render_value a2 false
  let t1 ← unwrapO (get_value_type a1)
  let c := c.insert_command
    (temp ++ " = " ++ (if t1.is_signed then "lshr" else "ashr") ++ " "
      ++ val0 ++ ", " ++ val1)
  let dt0 ← unwrapO (get_value_type a0)
  c.add_move a0 (convert_to_llvm dt0 ++ " " ++ temp)

/-- The commands an emitter step produced (empty on a diagnostic, a panic or
exhausted fuel). -/
def emittedCmds : PRes FunctionGenerationContext → List String
  | .ok c => c.result
  | _ => []

/-! ## Helper lemmas -/

/-- Indexing a list at `length - 1` reads its last element. -/
theorem listGetqLast {α : Type} (l : List α) : l[l.length - 1]? = l.getLast? := by
  induction l with
  | nil => rfl
  | cons x xs ih =>
    cases xs with
    | nil => rfl
    | cons y ys => simpa using ih

/-- The two loop stacks keep equal length under any run of loop-stack calls. -/
theorem loopRun_lengths_eq (ops : List LoopOp) (f : Function)
    (h : f.continue_stack.length = f.break_stack.length) :
    (ops.foldl loopStep f).continue_stack.length
      = (ops.foldl loopStep f).break_stack.length := by
  induction ops generalizing f with
  | nil => simpa using h
  | cons op rest ih =>
    refine ih _ ?_
    cases op <;>
      simp [loopStep, Function.enter_loop, Function.exit_loop, Function.get_label, h]

/-- On any state whose stacks have equal length, `get_break` returns the top
of `break_stack` (and `none` exactly on the empty stack), despite indexing
with `continue_stack.len() - 1`. -/
theorem get_break_of_eq_lengths (f : Function)
    (h : f.continue_stack.length = f.break_stack.length) :
    f.get_break = PRes.ok f.break_stack.getLast? := by
  cases hb : f.break_stack with
  | nil => simp [Function.get_break, hb]
  | cons x xs =>
    have hc : f.continue_stack.length = xs.length + 1 := by
      rw [h, hb]; simp
    have hg : (x :: xs)[xs.length]? = (x :: xs).getLast? := by
      simpa using listGetqLast (x :: xs)
    cases hl : (x :: xs).getLast? with
    | none =>
      exfalso
      rw [hl] at hg
      have := List.getElem?_eq_none_iff.mp hg
      simp at this
    | some a =>
      rw [hl] at hg
      simp [Function.get_break, hb, hc, usizeSub1, vecIndex, hg, Bind.bind, PRes.bind]

/-! ## The claims -/

/-- C1: the claim says the binary levels 4-13 parse left-associatively,
`a op b op c` becoming `Expression(op, [Expression(op, [a, b]), c])`.  The
source's binary arm of `recursive_expression` parses the right operand by
recursing *at the same depth* with no rebalancing, so `1 - 2 - 3` actually
parses as `Expression(Subtract, [1, Expression(Subtract, [2, 3])])`, i.e.
`1 - (2 - 3)`: this theorem evaluates the embedded parser at that failing
input. -/
theorem subtraction_parses_right_associative :
    parse_expression 64 (Stream.new [⟨"1", {}⟩, ⟨"-", {}⟩, ⟨"2", {}⟩, ⟨"-", {}⟩, ⟨"3", {}⟩])
      = PRes.ok (⟨[⟨"1", {}⟩, ⟨"-", {}⟩, ⟨"2", {}⟩, ⟨"-", {}⟩, ⟨"3", {}⟩], 5⟩,
          ParseTreeNode.Expression .Subtract
            [.IntegerLiteral ⟨"1", {}⟩,
             .Expression .Subtract
               [.IntegerLiteral ⟨"2", {}⟩, .IntegerLiteral ⟨"3", {}⟩]]) := rfl

/-- C2: the claim says a widening integer cast takes `sext`/`zext` from the
signedness of the *source* type, so `u8` to `i64` should emit `zext`.  The
source chooses from `dest_type.is_signed()`, so casting a `u8` literal to an
`i64` destination emits `sext`: this theorem evaluates the embedded Cast arm
at that failing input. -/
theorem cast_u8_to_i64_emits_sext :
    emittedCmds (FunctionGenerationContext.new.render_cast
        [Value.Symbol ⟨"x", ⟨.I64, 0, false⟩⟩, Value.Literal ⟨200, ⟨.U8, 0, false⟩⟩])
      = ["%V0 = sext i8 200 to i64",
         "%V1 = alloca i64, align 8",
         "store i64 %V0, i64* %V1"] := rfl

/-- C3: the claim says `Shr` emits `ashr` when operand 1's type is signed and
`lshr` when it is unsigned.  The source's Shr arm has the two opcodes
swapped (`if … is_signed() {"lshr"} else {"ashr"}`), so a shift of a signed
`i32` operand emits `lshr`: this theorem evaluates the embedded Shr arm at
that failing input. -/
theorem shr_signed_operand_emits_lshr :
    emittedCmds (FunctionGenerationContext.new.render_shr
        [Value.Symbol ⟨"d", ⟨.I32, 0, false⟩⟩,
         Value.Symbol ⟨"a", ⟨.I32, 0, false⟩⟩,
         Value.Literal ⟨1, ⟨.I32, 0, false⟩⟩])
      = ["%V1 = alloca i32, align 4",
         "%V2 = load i32, i32* %V1, align 4",
         "%V0 = lshr i32 %V2, 1",
         "%V3 = alloca i32, align 4",
         "store i32 %V0, i32* %V3"] := rfl

/-- C4: the claim says a cast between identical types emits no conversion
instruction, in particular for identical pointer types.  The source's Cast
arm emits `ptrtoint` for *every* pointer source before it compares the two
types, so a cast from `i32*` to `i32*` emits a `ptrtoint` (and then stores
the resulting `i64` into the `i32**` slot): this theorem evaluates the
embedded Cast arm at that failing input. -/
theorem cast_identical_pointer_emits_ptrtoint :
    emittedCmds (FunctionGenerationContext.new.render_cast
        [Value.Symbol ⟨"d", ⟨.I32, 1, false⟩⟩, Value.Symbol ⟨"s", ⟨.I32, 1, false⟩⟩])
      = ["%V0 = alloca i32*, align 8",
         "%V1 = load i32*, i32** %V0, align 8",
         "%V2 = ptrtoint i32* %V1 to i64",
         "%V3 = alloca i32*, align 8",
         "store i64 %V2, i32** %V3"] := rfl

/-- C5: the claim says `parse_identifier` accepts exactly the language
`[A-Za-z_][A-Za-z0-9_]*` minus type names and keywords, rejecting in
particular the token `"|"`.  The source's `IDENTIFIER_REGEX` is
`\A[a-zA-Z|_][a-zA-Z0-9|_]*`, whose character classes contain a literal `|`,
so the token `"|"` is accepted as an identifier: this theorem evaluates the
embedded `parse_identifier` at that failing input. -/
theorem parse_identifier_accepts_pipe :
    parse_identifier (Stream.new [⟨"|", {}⟩])
      = PRes.ok (⟨[⟨"|", {}⟩], 1⟩, ParseTreeNode.Identifier ⟨"|", {}⟩) := rfl

/-- C6: the claim says `parse` always returns a parse tree or a single
diagnostic, in particular when the tokens end after a trailing binary
operator.  On `i32 f ( ) { return 1 +` the binary arm of
`recursive_expression` consumes the `+` and recurses on the exhausted
stream, and depth 3 then evaluates `stream.current().unwrap()` on `None`: a
panic, not a diagnostic.  This theorem evaluates the embedded `parse` at
that failing input. -/
theorem parse_panics_on_eof_after_operator :
    parse [⟨"i32", {}⟩, ⟨"f", {}⟩, ⟨"(", {}⟩, ⟨")", {}⟩, ⟨"\x7b", {}⟩,
           ⟨"return", {}⟩, ⟨"1", {}⟩, ⟨"+", {}⟩]
      = PRes.panic := rfl

/-- C7: in every `Function` state reachable from `Function::new` through any
sequence of `enter_loop`, `exit_loop`, `get_continue` and `get_break` calls,
`continue_stack` and `break_stack` have equal length, and `get_break` —
despite indexing `break_stack` with `continue_stack.len() - 1` — returns the
most recently pushed element of `break_stack` (its `getLast?`), which is
`none` exactly when the stack is empty. -/
theorem loop_stacks_parallel_and_get_break_reads_top (ops : List LoopOp) :
    (runLoopOps ops).continue_stack.length = (runLoopOps ops).break_stack.length
      ∧ (runLoopOps ops).get_break = PRes.ok ((runLoopOps ops).break_stack.getLast?) := by
  have h := loopRun_lengths_eq ops Function.new rfl
  exact ⟨h, get_break_of_eq_lengths _ h⟩

/-- Concrete run of C7's theorem: after entering two loops, leaving one and
entering another, `get_break` returns the innermost exit label `L5`. -/
theorem loop_stacks_parallel_witness :
    (runLoopOps [.enter, .enter, .exitl, .enter]).get_break
      = PRes.ok (some "L5") :=
  (loop_stacks_parallel_and_get_break_reads_top [.enter, .enter, .exitl, .enter]).2

/-- C8: `Function::from_parse_tree_node` ends, after rendering the body
statement (whose module `src/irgen/statement.rs` is not among the provided
files — the theorem therefore quantifies over *every* intermediate state the
rendering could produce), with `place_label_here("exit")` followed by
`add_instruction(Nop)`: in the resulting function the label `"exit"` is
bound at index `next_index - 1` and the instruction stored there is a
`Nop`. -/
theorem built_function_ends_with_exit_label_on_nop (f : Function) :
    (∃ ls, assocFind ((f.place_label_here "exit").add_instruction ⟨.Nop, []⟩).labels
        (((f.place_label_here "exit").add_instruction ⟨.Nop, []⟩).next_index - 1) = some ls
        ∧ "exit" ∈ ls)
      ∧ assocFind ((f.place_label_here "exit").add_instruction ⟨.Nop, []⟩).instructions
          (((f.place_label_here "exit").add_instruction ⟨.Nop, []⟩).next_index - 1)
        = some ⟨.Nop, []⟩ := by
  constructor
  · cases h : assocFind f.labels f.next_index with
    | some ls =>
      exact ⟨ls ++ ["exit"], by
        simp [Function.add_instruction, Function.place_label_here, Function.place_label,
          h, assocFind], by simp⟩
    | none =>
      exact ⟨["exit"], by
        simp [Function.add_instruction, Function.place_label_here, Function.place_label,
          h, assocFind], by simp⟩
  · simp [Function.add_instruction, Function.place_label_here, Function.place_label,
      assocFind]

/-- Concrete run of C8's theorem on the empty function. -/
theorem built_function_ends_with_exit_label_on_nop_witness :
    (∃ ls, assocFind ((Function.new.place_label_here "exit").add_instruction ⟨.Nop, []⟩).labels
        (((Function.new.place_label_here "exit").add_instruction ⟨.Nop, []⟩).next_index - 1)
        = some ls ∧ "exit" ∈ ls)
      ∧ assocFind ((Function.new.place_label_here "exit").add_instruction ⟨.Nop, []⟩).instructions
          (((Function.new.place_label_here "exit").add_instruction ⟨.Nop, []⟩).next_index - 1)
        = some ⟨.Nop, []⟩ :=
  built_function_ends_with_exit_label_on_nop Function.new

/-- C9: `attempt_mutate_type` and `force_mutate_type` return the value
unchanged unless its raw type is `Unknown`; `attempt_mutate_type` rewrites
only literals, `force_mutate_type` rewrites literals and symbols, neither
touches a label; and every written type is the given type with `is_ref`
cleared to `false`. -/
theorem mutate_type_frame (v : Value) (t : DataType) :
    (∀ dt, get_value_type v = some dt → dt.raw_type ≠ NonPtrType.Unknown →
        attempt_mutate_type v t = v ∧ force_mutate_type v t = v)
      ∧ (∀ s, v = Value.Symbol s → attempt_mutate_type v t = v)
      ∧ (∀ l, v = Value.Label l →
            attempt_mutate_type v t = v ∧ force_mutate_type v t = v)
      ∧ (∀ lit, v = Value.Literal lit → lit.datatype.raw_type = NonPtrType.Unknown →
            attempt_mutate_type v t
                = Value.Literal { lit with datatype := { t with is_ref := false } }
              ∧ force_mutate_type v t
                = Value.Literal { lit with datatype := { t with is_ref := false } })
      ∧ (∀ s, v = Value.Symbol s → s.datatype.raw_type = NonPtrType.Unknown →
            force_mutate_type v t
              = Value.Symbol { s with datatype := { t with is_ref := false } }) := by
  refine ⟨?_, ?_, ?_, ?_, ?_⟩
  · intro dt hdt hne
    cases v with
    | Label l => simp [attempt_mutate_type, force_mutate_type]
    | Symbol s =>
      simp only [get_value_type, Option.some.injEq] at hdt
      subst hdt
      simp [attempt_mutate_type, force_mutate_type, beq_iff_eq, hne]
    | Literal lit =>
      simp only [get_value_type, Option.some.injEq] at hdt
      subst hdt
      simp [attempt_mutate_type, force_mutate_type, beq_iff_eq, hne]
  · intro s hv
    subst hv
    simp [attempt_mutate_type]
  · intro l hv
    subst hv
    simp [attempt_mutate_type, force_mutate_type]
  · intro lit hv hu
    subst hv
    simp [attempt_mutate_type, force_mutate_type, correct_type_references,
      beq_iff_eq, hu]
  · intro s hv hu
    subst hv
    simp [force_mutate_type, correct_type_references, beq_iff_eq, hu]

/-- Concrete run of C9's theorem: a literal of unknown raw type is rewritten
to the given type with `is_ref` cleared. -/
theorem mutate_type_frame_witness :
    attempt_mutate_type (Value.Literal ⟨5, ⟨.Unknown, 0, true⟩⟩) ⟨.I32, 0, true⟩
      = Value.Literal ⟨5, ⟨.I32, 0, false⟩⟩ :=
  ((mutate_type_frame (Value.Literal ⟨5, ⟨.Unknown, 0, true⟩⟩) ⟨.I32, 0, true⟩).2.2.2.1
    ⟨5, ⟨.Unknown, 0, true⟩⟩ rfl rfl).1

/-- C10: `parse_library` loops only while `Stream::peek` (which looks at
`index + 1`) returns a token, so whenever exactly one unconsumed token
remains the loop exits, returning `Ok` with the functions accumulated so far
and silently discarding that token; in particular `parse` on a one-token
stream returns an empty `Library` with no diagnostic. -/
theorem parse_library_discards_single_trailing_token :
    (∀ (s : Stream) (acc : List ParseTreeNode) (fuel : Nat),
        s.tokens.length ≤ s.index + 1 →
        parse_library_aux (fuel + 1) s acc = PRes.ok (s, ParseTreeNode.Library acc))
      ∧ ∀ t : Token, parse [t] = PRes.ok (ParseTreeNode.Library []) := by
  constructor
  · intro s acc fuel h
    have hp : s.peek = none := by
      simp only [Stream.peek, if_neg (by omega : ¬ s.index + 1 < s.tokens.length)]
    simp [parse_library_aux, hp]
  · intro t
    rfl

/-- Concrete run of C10's theorem: a one-token stream is accepted as the
empty library, the token silently discarded. -/
theorem parse_library_discards_single_trailing_token_witness :
    parse_library_aux 5 (Stream.new [⟨"x", {}⟩]) []
      = PRes.ok (Stream.new [⟨"x", {}⟩], ParseTreeNode.Library []) :=
  parse_library_discards_single_trailing_token.1 (Stream.new [⟨"x", {}⟩]) [] 4 (by simp [Stream.new])

end LLVMCompiler
